import Mathlib

/-!
Verification development for the cortex plugin trust and hook execution core.

The Rust sources embedded here (shallowly) are:
- `cortex-plugins/src/hooks/dispatcher.rs` (hook dispatch and pattern matching),
- `cortex-plugins/src/host.rs` (capability-bridge host functions),
- `cortex-plugins/src/signing.rs` (signature verification and checksums),
- `cortex-engine/src/plugin/integration.rs` (hook result translation).

Rust strings are modelled as `List Char` (for dispatcher-level strings) or
`List Nat` of byte values (for strings read out of sandboxed module memory).
Machine integers are modelled as `Int`/`Nat` with explicit bounds checks
exactly where the source performs them.
-/

set_option maxHeartbeats 1000000

/-- Rust `&str`/`String` at the dispatcher level, modelled as a list of
characters. -/
abbrev Str := List Char

/-- Rust `pattern.split('*').collect::<Vec<&str>>()`: split a string at every
occurrence of `'*'`, keeping empty segments (so `"**"` yields three empty
segments and `"a*b"` yields `["a", "b"]`). -/
def splitStar : Str → List Str
  | [] => [[]]
  | c :: rest =>
    if c = '*' then [] :: splitStar rest
    else
      match splitStar rest with
      | [] => [[c]]
      | p :: ps => (c :: p) :: ps

/-- `HookDispatcher::matches_pattern` from `hooks/dispatcher.rs`:
`"*"` matches everything; a pattern containing `'*'` that splits into exactly
two parts is treated as `prefix*suffix` via `starts_with`/`ends_with`;
every other pattern must equal the tool name exactly. -/
def matches_pattern (tool pat : Str) : Bool :=
  if pat = ['*'] then
    true
  else if pat.contains '*' then
    let parts := splitStar pat
    if parts.length = 2 then
      let pre := parts.getD 0 []
      let suf := parts.getD 1 []
      List.isPrefixOf pre tool && List.isSuffixOf suf tool
    else
      decide (tool = pat)
  else
    decide (tool = pat)

/-- `serde_json::Value`, modelled structurally. -/
inductive Json
  | null
  | bool (b : Bool)
  | num (n : Int)
  | str (s : Str)
  | arr (elems : List Json)
  | obj (entries : List (Str × Json))

/-- `HookResult` from `hooks/types.rs`; its four variants are visible in
`dispatcher.rs` and `integration.rs`. -/
inductive HookResult
  | Continue
  | Skip
  | Abort (reason : Str)
  | Replace (result : Json)

/-- Input to tool.execute.before hooks (fields visible in `integration.rs`). -/
structure ToolExecuteBeforeInput where
  tool : Str
  session_id : Str
  call_id : Str
  args : Json

/-- Accumulated output of a tool.execute.before dispatch: possibly-modified
arguments plus the running `HookResult`. -/
structure ToolExecuteBeforeOutput where
  args : Json
  result : HookResult

/-- Modelled from the spec: `ToolExecuteBeforeOutput::new` (hooks/tool_hooks.rs
is not under src/); per spec section 4.2 each dispatch starts in `Continue`
with the default payload, here the incoming arguments. -/
def ToolExecuteBeforeOutput.new (args : Json) : ToolExecuteBeforeOutput :=
  { args := args, result := HookResult.Continue }

/-- Input to tool.execute.after hooks (fields visible in `integration.rs`). -/
structure ToolExecuteAfterInput where
  tool : Str
  session_id : Str
  call_id : Str
  success : Bool
  duration_ms : Nat

/-- Accumulated output of a tool.execute.after dispatch. -/
structure ToolExecuteAfterOutput where
  output : Str
  result : HookResult

/-- Modelled from the spec: `ToolExecuteAfterOutput::new` (hooks/tool_hooks.rs
is not under src/); the dispatch starts in `Continue` carrying the raw tool
output string. -/
def ToolExecuteAfterOutput.new (tool_output : Str) : ToolExecuteAfterOutput :=
  { output := tool_output, result := HookResult.Continue }

/-- Input to chat.message hooks (fields visible in `integration.rs`). -/
structure ChatMessageInput where
  session_id : Str
  role : Str
  message_id : Option Str
  agent : Option Str
  model : Option Str

/-- Accumulated output of a chat.message dispatch. -/
structure ChatMessageOutput where
  content : Str
  result : HookResult

/-- Modelled from the spec: `ChatMessageOutput::new` (hooks/chat_hooks.rs is
not under src/); the dispatch starts in `Continue` carrying the incoming
message content. -/
def ChatMessageOutput.new (content : Str) : ChatMessageOutput :=
  { content := content, result := HookResult.Continue }

/-- The three permission decisions (spec section 3). -/
inductive PermissionDecision
  | Allow
  | Deny
  | Ask
deriving DecidableEq

/-- Input to permission.ask hooks (fields visible in `dispatcher.rs` tests and
`integration.rs`). -/
structure PermissionAskInput where
  session_id : Str
  permission : Str
  resource : Str
  reason : Option Str

/-- Accumulated output of a permission.ask dispatch: the running decision and
an optional explanatory reason. -/
structure PermissionAskOutput where
  decision : PermissionDecision
  reason : Option Str
deriving DecidableEq

/-- Modelled from the spec: `PermissionAskOutput::ask`
(hooks/permission_hooks.rs is not under src/); the dispatch starts with the
default decision Ask and no reason, matching the fail-safe default of spec
section 7 and the dispatcher test expecting Ask when nothing decides. -/
def PermissionAskOutput.ask : PermissionAskOutput :=
  { decision := PermissionDecision.Ask, reason := none }

/-- Modelled from the spec: `PermissionDecision::requires_elevated_trust`
(hooks/permission_hooks.rs is not under src/): "carries a notion of requires
elevated trust (true only for Allow)" (spec section 3). -/
def PermissionDecision.requires_elevated_trust : PermissionDecision → Bool
  | PermissionDecision.Allow => true
  | _ => false

/-- Modelled from the spec: `PermissionDecision::validate_for_third_party`
(hooks/permission_hooks.rs is not under src/): "a validation predicate
permitted for a non-system source (always false for Allow as issued by an
untrusted source)" (spec section 3) — it fails exactly on Allow. -/
def PermissionDecision.validate_for_third_party :
    PermissionDecision → Except Str Unit
  | PermissionDecision.Allow =>
      Except.error "Allow requires elevated trust".data
  | _ => Except.ok ()

/-- Rust `Result::is_err`. -/
def exceptIsErr {ε α : Type} : Except ε α → Bool
  | Except.error _ => true
  | Except.ok _ => false

/-- The default reason attached in `trigger_permission_ask` when a
third-party auto-grant is blocked (dispatcher.rs line 121). -/
def third_party_block_reason : Str :=
  "permission.allow from third-party hook was blocked".data

/-- A registered tool.execute.before hook as the dispatcher sees it: an
optional tool-name pattern (`registered.hook.pattern()`) and the `execute`
body, modelled as a pure transformation of the accumulated output. -/
structure ToolBeforeHook where
  pattern : Option Str
  execute : ToolExecuteBeforeInput → ToolExecuteBeforeOutput → ToolExecuteBeforeOutput

/-- A registered tool.execute.after hook. -/
structure ToolAfterHook where
  pattern : Option Str
  execute : ToolExecuteAfterInput → ToolExecuteAfterOutput → ToolExecuteAfterOutput

/-- A registered chat.message hook (no pattern is consulted for chat hooks). -/
abbrev ChatHook := ChatMessageInput → ChatMessageOutput → ChatMessageOutput

/-- A registered permission.ask hook. -/
abbrev PermissionHook := PermissionAskInput → PermissionAskOutput → PermissionAskOutput

/-- The pattern guard at the top of both tool loops: a hook is skipped
without being invoked when it declares a pattern that does not match the
current tool name. -/
def hookPatternSkips (pattern : Option Str) (tool : Str) : Bool :=
  match pattern with
  | some pat => !matches_pattern tool pat
  | none => false

/-- Loop of `HookDispatcher::trigger_tool_execute_before` (dispatcher.rs
lines 33-48): walk the registered hooks in order; skip non-matching
patterns; after each invocation stop on Skip, Abort or Replace and keep
going on Continue. -/
def tool_execute_before_go (input : ToolExecuteBeforeInput) :
    List ToolBeforeHook → ToolExecuteBeforeOutput → ToolExecuteBeforeOutput
  | [], output => output
  | h :: rest, output =>
    if hookPatternSkips h.pattern input.tool then
      tool_execute_before_go input rest output
    else
      let output1 := h.execute input output
      match output1.result with
      | HookResult.Continue => tool_execute_before_go input rest output1
      | _ => output1

/-- `HookDispatcher::trigger_tool_execute_before`. -/
def trigger_tool_execute_before (hooks : List ToolBeforeHook)
    (input : ToolExecuteBeforeInput) : ToolExecuteBeforeOutput :=
  tool_execute_before_go input hooks (ToolExecuteBeforeOutput.new input.args)

/-- Loop of `HookDispatcher::trigger_tool_execute_after` (dispatcher.rs
lines 62-76). -/
def tool_execute_after_go (input : ToolExecuteAfterInput) :
    List ToolAfterHook → ToolExecuteAfterOutput → ToolExecuteAfterOutput
  | [], output => output
  | h :: rest, output =>
    if hookPatternSkips h.pattern input.tool then
      tool_execute_after_go input rest output
    else
      let output1 := h.execute input output
      match output1.result with
      | HookResult.Continue => tool_execute_after_go input rest output1
      | _ => output1

/-- `HookDispatcher::trigger_tool_execute_after`. -/
def trigger_tool_execute_after (hooks : List ToolAfterHook)
    (input : ToolExecuteAfterInput) (tool_output : Str) : ToolExecuteAfterOutput :=
  tool_execute_after_go input hooks (ToolExecuteAfterOutput.new tool_output)

/-- Loop of `HookDispatcher::trigger_chat_message` (dispatcher.rs lines
90-97): every hook runs in order (no pattern filter); stop on Skip, Abort or
Replace. -/
def chat_message_go (input : ChatMessageInput) :
    List ChatHook → ChatMessageOutput → ChatMessageOutput
  | [], output => output
  | h :: rest, output =>
    let output1 := h input output
    match output1.result with
    | HookResult.Continue => chat_message_go input rest output1
    | _ => output1

/-- `HookDispatcher::trigger_chat_message`. -/
def trigger_chat_message (hooks : List ChatHook) (input : ChatMessageInput)
    (content : Str) : ChatMessageOutput :=
  chat_message_go input hooks (ChatMessageOutput.new content)

/-- The coercion applied by `trigger_permission_ask` when a decision requires
elevated trust but fails the third-party check (dispatcher.rs lines 115-125):
decision forced back to Ask, default reason attached when none is present. -/
def coerce_to_ask (output : PermissionAskOutput) : PermissionAskOutput :=
  { decision := PermissionDecision.Ask,
    reason := if output.reason.isNone then some third_party_block_reason
              else output.reason }

/-- Loop of `HookDispatcher::trigger_permission_ask` (dispatcher.rs lines
110-131): invoke each hook in order; an elevated-trust decision failing the
third-party check is coerced back to Ask and evaluation continues; otherwise
any decision other than Ask stops the chain. -/
def permission_ask_go (input : PermissionAskInput) :
    List PermissionHook → PermissionAskOutput → PermissionAskOutput
  | [], output => output
  | h :: rest, output =>
    let output1 := h input output
    if output1.decision.requires_elevated_trust
        && exceptIsErr output1.decision.validate_for_third_party then
      permission_ask_go input rest (coerce_to_ask output1)
    else if output1.decision ≠ PermissionDecision.Ask then
      output1
    else
      permission_ask_go input rest output1

/-- `HookDispatcher::trigger_permission_ask`. -/
def trigger_permission_ask (hooks : List PermissionHook)
    (input : PermissionAskInput) : PermissionAskOutput :=
  permission_ask_go input hooks PermissionAskOutput.ask

/-- `ToolHookResult` from `cortex-engine/src/plugin/integration.rs`. -/
structure ToolHookResult where
  args : Option Json
  output : Option Str
  should_continue : Bool
  abort_reason : Option Str
  replacement : Option Json

/-- `impl From<ToolExecuteBeforeOutput> for ToolHookResult`
(integration.rs lines 45-62). -/
def ToolHookResult.fromBefore (o : ToolExecuteBeforeOutput) : ToolHookResult :=
  let triple : Bool × Option Str × Option Json :=
    match o.result with
    | HookResult.Continue => (true, none, none)
    | HookResult.Skip => (true, none, none)
    | HookResult.Abort reason => (false, some reason, none)
    | HookResult.Replace result => (true, none, some result)
  { args := some o.args, output := none,
    should_continue := triple.1, abort_reason := triple.2.1,
    replacement := triple.2.2 }

/-- `impl From<ToolExecuteAfterOutput> for ToolHookResult`
(integration.rs lines 64-81). -/
def ToolHookResult.fromAfter (o : ToolExecuteAfterOutput) : ToolHookResult :=
  let triple : Bool × Option Str × Option Json :=
    match o.result with
    | HookResult.Continue => (true, none, none)
    | HookResult.Skip => (true, none, none)
    | HookResult.Abort reason => (false, some reason, none)
    | HookResult.Replace result => (true, none, some result)
  { args := none, output := some o.output,
    should_continue := triple.1, abort_reason := triple.2.1,
    replacement := triple.2.2 }

/-- Strings crossing the sandbox boundary, as raw byte values (each < 256 in
real executions; the bounds checks of the source never depend on that). -/
abbrev ByteStr := List Nat

/-- `HostError` from host.rs lines 22-31. -/
inductive HostError
  | Success
  | MemoryOutOfBounds
  | InvalidUtf8
  | InvalidArgument
  | InternalError
  | NotSupported
deriving DecidableEq

/-- The `#[repr(i32)]` discriminants of `HostError` (host.rs lines 24-30). -/
def HostError.code : HostError → Int
  | HostError.Success => 0
  | HostError.MemoryOutOfBounds => -1
  | HostError.InvalidUtf8 => -2
  | HostError.InvalidArgument => -3
  | HostError.InternalError => -4
  | HostError.NotSupported => -5

/-- `ToastLevel` from host.rs lines 66-71. -/
inductive ToastLevel
  | Info
  | Success
  | Warning
  | Error
deriving DecidableEq

/-- `ToastLevel::from_i32` (host.rs lines 74-82): unknown ordinals default to
Info. -/
def ToastLevel.from_i32 (value : Int) : ToastLevel :=
  if value = 0 then ToastLevel.Info
  else if value = 1 then ToastLevel.Success
  else if value = 2 then ToastLevel.Warning
  else if value = 3 then ToastLevel.Error
  else ToastLevel.Info

/-- `UiRegion` from cortex-plugins hooks: the ten UI regions (spec section
6), matched by ordinal in `register_widget_impl`. -/
inductive UiRegion
  | Header
  | Footer
  | SidebarLeft
  | SidebarRight
  | MainContent
  | InputArea
  | Overlay
  | StatusBar
  | ToolOutput
  | MessageArea
deriving DecidableEq

/-- The region-ordinal match of `register_widget_impl` (host.rs lines
334-349): ordinals 0-9 map to the ten regions, everything else is invalid. -/
def ui_region_of_i32 (region : Int) : Option UiRegion :=
  if region = 0 then some UiRegion.Header
  else if region = 1 then some UiRegion.Footer
  else if region = 2 then some UiRegion.SidebarLeft
  else if region = 3 then some UiRegion.SidebarRight
  else if region = 4 then some UiRegion.MainContent
  else if region = 5 then some UiRegion.InputArea
  else if region = 6 then some UiRegion.Overlay
  else if region = 7 then some UiRegion.StatusBar
  else if region = 8 then some UiRegion.ToolOutput
  else if region = 9 then some UiRegion.MessageArea
  else none

/-- Rust `usize::checked_add` on a 64-bit host: `none` exactly when the
mathematical sum does not fit in a `usize`. -/
def usize_checked_add (a b : Nat) : Option Nat :=
  if a + b < 2 ^ 64 then some (a + b) else none

/-- A UTF-8 continuation byte: `0x80..=0xBF`. -/
def utf8Cont (b : Nat) : Bool :=
  0x80 ≤ b && b ≤ 0xBF

/-- Strict UTF-8 validity of a byte sequence, as enforced by Rust
`std::str::from_utf8` (external standard library): rejects overlong
encodings, UTF-16 surrogates and code points above U+10FFFF. -/
def utf8Valid : ByteStr → Bool
  | [] => true
  | b :: rest =>
    if b ≤ 0x7F then
      utf8Valid rest
    else if 0xC2 ≤ b && b ≤ 0xDF then
      match rest with
      | c1 :: r => utf8Cont c1 && utf8Valid r
      | [] => false
    else if b = 0xE0 then
      match rest with
      | c1 :: c2 :: r => (0xA0 ≤ c1 && c1 ≤ 0xBF) && utf8Cont c2 && utf8Valid r
      | _ => false
    else if (0xE1 ≤ b && b ≤ 0xEC) || b = 0xEE || b = 0xEF then
      match rest with
      | c1 :: c2 :: r => utf8Cont c1 && utf8Cont c2 && utf8Valid r
      | _ => false
    else if b = 0xED then
      match rest with
      | c1 :: c2 :: r => (0x80 ≤ c1 && c1 ≤ 0x9F) && utf8Cont c2 && utf8Valid r
      | _ => false
    else if b = 0xF0 then
      match rest with
      | c1 :: c2 :: c3 :: r =>
          (0x90 ≤ c1 && c1 ≤ 0xBF) && utf8Cont c2 && utf8Cont c3 && utf8Valid r
      | _ => false
    else if 0xF1 ≤ b && b ≤ 0xF3 then
      match rest with
      | c1 :: c2 :: c3 :: r =>
          utf8Cont c1 && utf8Cont c2 && utf8Cont c3 && utf8Valid r
      | _ => false
    else if b = 0xF4 then
      match rest with
      | c1 :: c2 :: c3 :: r =>
          (0x80 ≤ c1 && c1 ≤ 0x8F) && utf8Cont c2 && utf8Cont c3 && utf8Valid r
      | _ => false
    else
      false

/-- `read_string_from_memory` (host.rs lines 151-181): reject negative `ptr`
or `len`; compute `end` with `checked_add` (overflow rejected); fetch the
module's exported linear memory (`none` models a module without a "memory"
export, which the source maps to InternalError); bounds-check `end` against
the memory's current length; slice `[ptr, end)` and validate as UTF-8.
Returns the byte content of the resulting Rust `String`. The function is
pure: it touches no host state. -/
def read_string_from_memory (mem : Option ByteStr) (ptr len : Int) :
    Except HostError ByteStr :=
  if ptr < 0 ∨ len < 0 then
    Except.error HostError.MemoryOutOfBounds
  else
    let ptr_usize := ptr.toNat
    let len_usize := len.toNat
    match usize_checked_add ptr_usize len_usize with
    | none => Except.error HostError.MemoryOutOfBounds
    | some e =>
      match mem with
      | none => Except.error HostError.InternalError
      | some data =>
        if e > data.length then
          Except.error HostError.MemoryOutOfBounds
        else
          let bytes := (data.drop ptr_usize).take (e - ptr_usize)
          if utf8Valid bytes then Except.ok bytes
          else Except.error HostError.InvalidUtf8

/-- `PluginEvent` from host.rs lines 119-125; the timestamp is the
`chrono::Utc::now()` instant, modelled as a number supplied by the caller. -/
structure PluginEvent where
  name : ByteStr
  data : ByteStr
  plugin_id : ByteStr
  timestamp : Nat
deriving DecidableEq

/-- `ToastNotification` from host.rs lines 128-134. -/
structure ToastNotification where
  level : ToastLevel
  message : ByteStr
  duration_ms : Nat
  plugin_id : ByteStr
deriving DecidableEq

/-- `PluginHostState` from host.rs lines 91-103: the four lock-guarded
collections plus the plugin identifier. The locks themselves and the
read-only context snapshot (used only by `get_context_impl`, not embedded)
are not part of the model; every embedded host function takes the state and
returns the (possibly unchanged) new state. -/
structure PluginHostState where
  plugin_id : ByteStr
  widgets : List (UiRegion × List ByteStr)
  keybindings : List (ByteStr × ByteStr)
  events : List PluginEvent
  toasts : List ToastNotification
deriving DecidableEq

/-- `widgets.entry(ui_region).or_default().push(widget_type)` with the
`HashMap<UiRegion, Vec<String>>` modelled as an association list: push onto
the existing entry, or create a fresh singleton entry. -/
def widgets_push (r : UiRegion) (t : ByteStr) :
    List (UiRegion × List ByteStr) → List (UiRegion × List ByteStr)
  | [] => [(r, [t])]
  | (r', ts) :: rest =>
    if r' = r then (r', ts ++ [t]) :: rest
    else (r', ts) :: widgets_push r t rest

/-- `keybindings.insert(key, action)` with the `HashMap<String, String>`
modelled as an association list: overwrite an existing key or append. -/
def keybindings_insert (k v : ByteStr) :
    List (ByteStr × ByteStr) → List (ByteStr × ByteStr)
  | [] => [(k, v)]
  | (k', v') :: rest =>
    if k' = k then (k', v) :: rest
    else (k', v') :: keybindings_insert k v rest

/-- `register_widget_impl` (host.rs lines 319-365): read the widget type
string, then validate the region ordinal, then append under lock. Returns
the i32 status and the resulting host state. -/
def register_widget_impl (mem : Option ByteStr) (state : PluginHostState)
    (region type_ptr type_len : Int) : Int × PluginHostState :=
  match read_string_from_memory mem type_ptr type_len with
  | Except.error e => (e.code, state)
  | Except.ok widget_type =>
    match ui_region_of_i32 region with
    | none => (HostError.InvalidArgument.code, state)
    | some ui_region =>
      (HostError.Success.code,
       { state with widgets := widgets_push ui_region widget_type state.widgets })

/-- `register_keybinding_impl` (host.rs lines 367-407): read both strings,
reject if either is empty, then insert/overwrite the mapping under lock. -/
def register_keybinding_impl (mem : Option ByteStr) (state : PluginHostState)
    (key_ptr key_len action_ptr action_len : Int) : Int × PluginHostState :=
  match read_string_from_memory mem key_ptr key_len with
  | Except.error e => (e.code, state)
  | Except.ok key =>
    match read_string_from_memory mem action_ptr action_len with
    | Except.error e => (e.code, state)
    | Except.ok action =>
      if key = [] ∨ action = [] then
        (HostError.InvalidArgument.code, state)
      else
        (HostError.Success.code,
         { state with keybindings := keybindings_insert key action state.keybindings })

/-- `show_toast_impl` (host.rs lines 409-450): read the message, reject a
negative duration, then append the toast record under lock. -/
def show_toast_impl (mem : Option ByteStr) (state : PluginHostState)
    (level msg_ptr msg_len duration_ms : Int) : Int × PluginHostState :=
  match read_string_from_memory mem msg_ptr msg_len with
  | Except.error e => (e.code, state)
  | Except.ok message =>
    if duration_ms < 0 then
      (HostError.InvalidArgument.code, state)
    else
      (HostError.Success.code,
       { state with toasts := state.toasts ++
           [{ level := ToastLevel.from_i32 level, message := message,
              duration_ms := duration_ms.toNat, plugin_id := state.plugin_id }] })

/-- `emit_event_impl` (host.rs lines 452-507): read name and payload, reject
an empty name, reject a non-empty payload that fails JSON parsing
(`serde_json::from_str::<serde_json::Value>` is an external library routine,
modelled by the predicate `json_valid`), then append the event record with a
timestamp (`now`) under lock. -/
def emit_event_impl (json_valid : ByteStr → Bool) (now : Nat)
    (mem : Option ByteStr) (state : PluginHostState)
    (name_ptr name_len data_ptr data_len : Int) : Int × PluginHostState :=
  match read_string_from_memory mem name_ptr name_len with
  | Except.error e => (e.code, state)
  | Except.ok name =>
    match read_string_from_memory mem data_ptr data_len with
    | Except.error e => (e.code, state)
    | Except.ok data =>
      if name = [] then
        (HostError.InvalidArgument.code, state)
      else if data ≠ [] ∧ json_valid data = false then
        (HostError.InvalidArgument.code, state)
      else
        (HostError.Success.code,
         { state with events := state.events ++
             [{ name := name, data := data, plugin_id := state.plugin_id,
                timestamp := now }] })

/-- `PluginSigner` from signing.rs lines 15-19: the list of trusted
verifying keys. The ed25519 key type and its `verify` routine live in the
external `ed25519_dalek` crate, so the key type `K` and the verification
relation are parameters of the embedding. -/
structure PluginSigner (K : Type) where
  trusted_keys : List K

/-- `PluginError::SignatureError` as raised by signing.rs. -/
inductive PluginError
  | SignatureError (msg : String)

/-- `PluginSigner::verify_plugin` (signing.rs lines 96-125): with no trusted
keys configured return `Ok(false)` (fail-closed, checked before anything
else); then require a 64-byte signature, else a format error; then succeed
exactly when any trusted key verifies the bytes against the signature.
`verify key bytes sig` models `key.verify(bytes, &sig).is_ok()`. -/
def PluginSigner.verify_plugin {K : Type} (verify : K → ByteStr → ByteStr → Bool)
    (signer : PluginSigner K) (wasm_bytes signature_bytes : ByteStr) :
    Except PluginError Bool :=
  if signer.trusted_keys.isEmpty then
    Except.ok false
  else if signature_bytes.length ≠ 64 then
    Except.error (PluginError.SignatureError "Invalid signature length")
  else
    Except.ok (signer.trusted_keys.any fun key => verify key wasm_bytes signature_bytes)

/-- A concrete chat.message input used to instantiate universally quantified
theorems at evaluable arguments. -/
def cChatInput : ChatMessageInput :=
  { session_id := [], role := "user".data, message_id := none, agent := none,
    model := none }

/-- A concrete permission.ask input used to instantiate universally
quantified theorems at evaluable arguments. -/
def cPermInput : PermissionAskInput :=
  { session_id := [], permission := "network_access".data,
    resource := "https".data, reason := none }

/-- An empty concrete host state used to instantiate universally quantified
theorems at evaluable arguments. -/
def cHostState : PluginHostState :=
  { plugin_id := [], widgets := [], keybindings := [], events := [],
    toasts := [] }


/-! ## Helper lemmas about `splitStar` and `matches_pattern` -/

theorem splitStar_no_star (l : Str) (h : '*' ∉ l) : splitStar l = [l] := by
  induction l with
  | nil => rfl
  | cons c rest ih =>
    simp only [List.mem_cons, not_or] at h
    obtain ⟨hc, hrest⟩ := h
    have hc' : ¬ c = '*' := fun he => hc he.symm
    simp [splitStar, hc', ih hrest]

theorem splitStar_append_star (pre : Str) (hp : '*' ∉ pre) :
    splitStar (pre ++ ['*']) = [pre, []] := by
  induction pre with
  | nil => rfl
  | cons c rest ih =>
    simp only [List.mem_cons, not_or] at hp
    obtain ⟨hc, hrest⟩ := hp
    have hc' : ¬ c = '*' := fun he => hc he.symm
    simp [splitStar, hc', ih hrest]

theorem splitStar_ne_nil (l : Str) : splitStar l ≠ [] := by
  induction l with
  | nil => simp [splitStar]
  | cons c rest ih =>
    by_cases hc : c = '*'
    · simp [splitStar, hc]
    · cases hr : splitStar rest with
      | nil => exact absurd hr ih
      | cons p ps => simp [splitStar, hc, hr]

theorem splitStar_length (l : Str) : (splitStar l).length = l.count '*' + 1 := by
  induction l with
  | nil => rfl
  | cons c rest ih =>
    by_cases hc : c = '*'
    · subst hc
      simp [splitStar, List.count_cons, ih]
    · cases hr : splitStar rest with
      | nil => exact absurd hr (splitStar_ne_nil rest)
      | cons p ps =>
        rw [hr] at ih
        simp only [List.length_cons] at ih
        simp [splitStar, hc, hr, List.count_cons, Ne.symm hc]
        omega

theorem matches_pattern_star (tool : Str) : matches_pattern tool ['*'] = true := by
  simp [matches_pattern]

theorem matches_pattern_prefix_glob (pre tool : Str) (hp : '*' ∉ pre) :
    matches_pattern tool (pre ++ ['*']) = List.isPrefixOf pre tool := by
  by_cases hnil : pre = []
  · subst hnil
    simp [matches_pattern]
  · have hne : pre ++ ['*'] ≠ ['*'] := by
      intro he
      apply hnil
      have hl := congrArg List.length he
      simp at hl
      exact hl
    simp [matches_pattern, hne, splitStar_append_star pre hp, List.isSuffixOf]

theorem matches_pattern_suffix_glob (suf tool : Str) (hs : '*' ∉ suf) :
    matches_pattern tool ('*' :: suf) = List.isSuffixOf suf tool := by
  by_cases hnil : suf = []
  · subst hnil
    simp [matches_pattern, List.isSuffixOf]
  · have hne : ('*' :: suf) ≠ ['*'] := by simp [hnil]
    have hsplit : splitStar ('*' :: suf) = [[], suf] := by
      simp [splitStar, splitStar_no_star suf hs]
    simp [matches_pattern, hne, hsplit]

theorem matches_pattern_exact (pat tool : Str) (h : '*' ∉ pat) :
    (matches_pattern tool pat = true ↔ tool = pat) := by
  have hne : pat ≠ ['*'] := by rintro rfl; exact h (by simp)
  simp [matches_pattern, hne, h]

/-! ## Claim theorems: pattern matching -/

/-- C7: tool-name pattern matching: the wildcard `"*"` matches every tool
name; a glob `prefix*` matches exactly the names starting with that prefix
(so `"read*"` matches `"read_file"` and `"read"` but not `"write_file"`);
a glob `*suffix` matches exactly the names ending with that suffix; a
pattern with no wildcard matches only the identical name; and an extension
whose pattern does not match the current tool name is not invoked at all —
the dispatcher moves on to the rest of the chain with the output untouched. -/
theorem C7_pattern_matching :
    (∀ tool : Str, matches_pattern tool ['*'] = true)
    ∧ (∀ pre tool : Str, '*' ∉ pre →
        matches_pattern tool (pre ++ ['*']) = List.isPrefixOf pre tool)
    ∧ (∀ suf tool : Str, '*' ∉ suf →
        matches_pattern tool ('*' :: suf) = List.isSuffixOf suf tool)
    ∧ (∀ pat tool : Str, '*' ∉ pat →
        (matches_pattern tool pat = true ↔ tool = pat))
    ∧ (matches_pattern "read_file".data "read*".data = true
        ∧ matches_pattern "read".data "read*".data = true
        ∧ matches_pattern "write_file".data "read*".data = false)
    ∧ (∀ (input : ToolExecuteBeforeInput) (h : ToolBeforeHook)
        (rest : List ToolBeforeHook) (output : ToolExecuteBeforeOutput) (pat : Str),
        h.pattern = some pat → matches_pattern input.tool pat = false →
        tool_execute_before_go input (h :: rest) output =
          tool_execute_before_go input rest output) := by
  refine ⟨matches_pattern_star, matches_pattern_prefix_glob,
    matches_pattern_suffix_glob, matches_pattern_exact,
    ⟨by decide, by decide, by decide⟩, ?_⟩
  intro input h rest output pat hp hm
  simp [tool_execute_before_go, hookPatternSkips, hp, hm]

/-- Witness for C7 at concrete inputs. -/
theorem C7_pattern_matching_witness :
    ('*' ∉ "read".data
      ∧ matches_pattern "read_file".data ("read".data ++ ['*'])
          = List.isPrefixOf "read".data "read_file".data)
    ∧ ('*' ∉ "file".data
      ∧ matches_pattern "my_file".data ('*' :: "file".data)
          = List.isSuffixOf "file".data "my_file".data)
    ∧ ('*' ∉ "write".data
      ∧ (matches_pattern "write".data "write".data = true
          ↔ ("write".data : Str) = "write".data))
    ∧ tool_execute_before_go
        { tool := "write_file".data, session_id := "s".data, call_id := "c".data,
          args := Json.null }
        [{ pattern := some "read*".data, execute := fun _ o => o }]
        (ToolExecuteBeforeOutput.new Json.null)
      = tool_execute_before_go
        { tool := "write_file".data, session_id := "s".data, call_id := "c".data,
          args := Json.null }
        [] (ToolExecuteBeforeOutput.new Json.null) :=
  ⟨⟨by decide, C7_pattern_matching.2.1 "read".data "read_file".data (by decide)⟩,
   ⟨by decide, C7_pattern_matching.2.2.1 "file".data "my_file".data (by decide)⟩,
   ⟨by decide, C7_pattern_matching.2.2.2.1 "write".data "write".data (by decide)⟩,
   C7_pattern_matching.2.2.2.2.2 _ _ [] _ "read*".data rfl (by decide)⟩

/-- C10: a pattern containing at least two `'*'` characters (hence in
particular not the single-character pattern `"*"`) degrades to exact literal
comparison: it matches a tool name if and only if the name is
character-for-character equal to the pattern, and is never interpreted as a
glob. -/
theorem C10_multi_star_exact (pat tool : Str) (h2 : 2 ≤ pat.count '*') :
    matches_pattern tool pat = true ↔ tool = pat := by
  have hne : pat ≠ ['*'] := by rintro rfl; simp [List.count_cons] at h2
  have hmem : '*' ∈ pat := by
    by_contra hnm
    rw [List.count_eq_zero.mpr hnm] at h2
    omega
  have hcont : pat.contains '*' = true := by simpa using hmem
  have hlen : (splitStar pat).length = pat.count '*' + 1 := splitStar_length pat
  have hlen2 : ¬ ((splitStar pat).length = 2) := by omega
  simp [matches_pattern, hne, hcont, hlen2]

/-- Witness for C10: the pattern `"a*b*c"` matches the literal name
`"a*b*c"` and does not match `"axbxc"`. -/
theorem C10_multi_star_exact_witness :
    (2 ≤ ("a*b*c".data).count '*'
      ∧ (matches_pattern "a*b*c".data "a*b*c".data = true
          ↔ ("a*b*c".data : Str) = "a*b*c".data))
    ∧ (2 ≤ ("a*b*c".data).count '*'
      ∧ (matches_pattern "axbxc".data "a*b*c".data = true
          ↔ ("axbxc".data : Str) = "a*b*c".data)) :=
  ⟨⟨by decide, C10_multi_star_exact "a*b*c".data "a*b*c".data (by decide)⟩,
   ⟨by decide, C10_multi_star_exact "a*b*c".data "axbxc".data (by decide)⟩⟩

/-! ## Helper lemmas and claim theorems: hook dispatch -/

theorem tool_before_go_stop (input : ToolExecuteBeforeInput) (h : ToolBeforeHook)
    (rest : List ToolBeforeHook) (output : ToolExecuteBeforeOutput)
    (hskip : hookPatternSkips h.pattern input.tool = false)
    (hres : (h.execute input output).result ≠ HookResult.Continue) :
    tool_execute_before_go input (h :: rest) output = h.execute input output := by
  cases hr : (h.execute input output).result with
  | Continue => exact absurd hr hres
  | Skip => simp [tool_execute_before_go, hskip, hr]
  | Abort reason => simp [tool_execute_before_go, hskip, hr]
  | Replace result => simp [tool_execute_before_go, hskip, hr]

theorem tool_before_go_continue (input : ToolExecuteBeforeInput) (h : ToolBeforeHook)
    (rest : List ToolBeforeHook) (output : ToolExecuteBeforeOutput)
    (hskip : hookPatternSkips h.pattern input.tool = false)
    (hres : (h.execute input output).result = HookResult.Continue) :
    tool_execute_before_go input (h :: rest) output =
      tool_execute_before_go input rest (h.execute input output) := by
  simp [tool_execute_before_go, hskip, hres]

theorem tool_after_go_stop (input : ToolExecuteAfterInput) (h : ToolAfterHook)
    (rest : List ToolAfterHook) (output : ToolExecuteAfterOutput)
    (hskip : hookPatternSkips h.pattern input.tool = false)
    (hres : (h.execute input output).result ≠ HookResult.Continue) :
    tool_execute_after_go input (h :: rest) output = h.execute input output := by
  cases hr : (h.execute input output).result with
  | Continue => exact absurd hr hres
  | Skip => simp [tool_execute_after_go, hskip, hr]
  | Abort reason => simp [tool_execute_after_go, hskip, hr]
  | Replace result => simp [tool_execute_after_go, hskip, hr]

theorem tool_after_go_continue (input : ToolExecuteAfterInput) (h : ToolAfterHook)
    (rest : List ToolAfterHook) (output : ToolExecuteAfterOutput)
    (hskip : hookPatternSkips h.pattern input.tool = false)
    (hres : (h.execute input output).result = HookResult.Continue) :
    tool_execute_after_go input (h :: rest) output =
      tool_execute_after_go input rest (h.execute input output) := by
  simp [tool_execute_after_go, hskip, hres]

theorem chat_go_stop (input : ChatMessageInput) (h : ChatHook)
    (rest : List ChatHook) (output : ChatMessageOutput)
    (hres : (h input output).result ≠ HookResult.Continue) :
    chat_message_go input (h :: rest) output = h input output := by
  cases hr : (h input output).result with
  | Continue => exact absurd hr hres
  | Skip => simp [chat_message_go, hr]
  | Abort reason => simp [chat_message_go, hr]
  | Replace result => simp [chat_message_go, hr]

theorem chat_go_continue (input : ChatMessageInput) (h : ChatHook)
    (rest : List ChatHook) (output : ChatMessageOutput)
    (hres : (h input output).result = HookResult.Continue) :
    chat_message_go input (h :: rest) output =
      chat_message_go input rest (h input output) := by
  simp [chat_message_go, hres]

theorem chat_go_all_continue (input : ChatMessageInput) :
    ∀ (hooks : List ChatHook) (output : ChatMessageOutput),
    (∀ h ∈ hooks, ∀ o, (h input o).result = HookResult.Continue) →
    chat_message_go input hooks output = hooks.foldl (fun o h => h input o) output
  | [], output, _ => by simp [chat_message_go]
  | h :: rest, output, hall => by
    have hh := hall h (List.mem_cons_self h rest) output
    rw [chat_go_continue input h rest output hh]
    rw [chat_go_all_continue input rest (h input output)
      (fun g hg o => hall g (List.mem_cons_of_mem h hg) o)]
    simp

theorem permission_go_ne_allow (input : PermissionAskInput) :
    ∀ (hooks : List PermissionHook) (output : PermissionAskOutput),
    output.decision ≠ PermissionDecision.Allow →
    (permission_ask_go input hooks output).decision ≠ PermissionDecision.Allow
  | [], output, h => by simpa [permission_ask_go] using h
  | hk :: rest, output, h => by
    rw [permission_ask_go]
    by_cases hcond : ((hk input output).decision.requires_elevated_trust
        && exceptIsErr (hk input output).decision.validate_for_third_party) = true
    · rw [if_pos hcond]
      exact permission_go_ne_allow input rest _ (by simp [coerce_to_ask])
    · rw [if_neg hcond]
      by_cases hask : (hk input output).decision ≠ PermissionDecision.Ask
      · rw [if_pos hask]
        intro hAllow
        apply hcond
        simp [hAllow, PermissionDecision.requires_elevated_trust,
          PermissionDecision.validate_for_third_party, exceptIsErr]
      · rw [if_neg hask]
        push_neg at hask
        exact permission_go_ne_allow input rest _ (by simp [hask])

/-- C5: in a tool.execute.before (and tool.execute.after) dispatch,
extensions are invoked in registration order; after any invocation whose
outcome is Skip, Abort(reason) or Replace(value), no further extension in
the chain is invoked and that outcome (with any payload mutation made so
far) is final, while Continue proceeds to the next extension; a single
tool.execute.before extension returning Abort("blocked") yields a result
with should_continue = false and reason "blocked". -/
theorem C5_tool_dispatch_short_circuit :
    (∀ (input : ToolExecuteBeforeInput) (h : ToolBeforeHook)
        (rest : List ToolBeforeHook) (output : ToolExecuteBeforeOutput),
        hookPatternSkips h.pattern input.tool = false →
        (h.execute input output).result ≠ HookResult.Continue →
        tool_execute_before_go input (h :: rest) output = h.execute input output)
    ∧ (∀ (input : ToolExecuteBeforeInput) (h : ToolBeforeHook)
        (rest : List ToolBeforeHook) (output : ToolExecuteBeforeOutput),
        hookPatternSkips h.pattern input.tool = false →
        (h.execute input output).result = HookResult.Continue →
        tool_execute_before_go input (h :: rest) output =
          tool_execute_before_go input rest (h.execute input output))
    ∧ (∀ (input : ToolExecuteAfterInput) (h : ToolAfterHook)
        (rest : List ToolAfterHook) (output : ToolExecuteAfterOutput),
        hookPatternSkips h.pattern input.tool = false →
        (h.execute input output).result ≠ HookResult.Continue →
        tool_execute_after_go input (h :: rest) output = h.execute input output)
    ∧ (∀ (input : ToolExecuteAfterInput) (h : ToolAfterHook)
        (rest : List ToolAfterHook) (output : ToolExecuteAfterOutput),
        hookPatternSkips h.pattern input.tool = false →
        (h.execute input output).result = HookResult.Continue →
        tool_execute_after_go input (h :: rest) output =
          tool_execute_after_go input rest (h.execute input output))
    ∧ (∀ (input : ToolExecuteBeforeInput) (reason : Str),
        ToolHookResult.fromBefore (trigger_tool_execute_before
          [{ pattern := none,
             execute := fun _ o => { o with result := HookResult.Abort reason } }] input)
          = { args := some input.args, output := none, should_continue := false,
              abort_reason := some reason, replacement := none }) :=
  ⟨tool_before_go_stop, tool_before_go_continue, tool_after_go_stop,
   tool_after_go_continue, fun _ _ => rfl⟩

/-- Witness for C5 at concrete inputs: a Skip hook stops a two-hook chain,
and the Abort("blocked") scenario maps to should_continue = false. -/
theorem C5_witness :
    (hookPatternSkips none ("read".data : Str) = false
      ∧ (({ pattern := none,
            execute := fun _ o => { o with result := HookResult.Skip } : ToolBeforeHook }).execute
          { tool := "read".data, session_id := [], call_id := [], args := Json.null }
          (ToolExecuteBeforeOutput.new Json.null)).result ≠ HookResult.Continue
      ∧ tool_execute_before_go
          { tool := "read".data, session_id := [], call_id := [], args := Json.null }
          [{ pattern := none, execute := fun _ o => { o with result := HookResult.Skip } },
           { pattern := none, execute := fun _ o => { o with args := Json.num 7 } }]
          (ToolExecuteBeforeOutput.new Json.null)
        = ({ pattern := none,
             execute := fun _ o => { o with result := HookResult.Skip } : ToolBeforeHook }).execute
            { tool := "read".data, session_id := [], call_id := [], args := Json.null }
            (ToolExecuteBeforeOutput.new Json.null))
    ∧ ToolHookResult.fromBefore (trigger_tool_execute_before
        [{ pattern := none,
           execute := fun _ o => { o with result := HookResult.Abort "blocked".data } }]
        { tool := "read".data, session_id := [], call_id := [], args := Json.null })
      = { args := some Json.null, output := none, should_continue := false,
          abort_reason := some "blocked".data, replacement := none } :=
  ⟨⟨rfl, fun hc => HookResult.noConfusion hc,
    C5_tool_dispatch_short_circuit.1 _ _ _ _ rfl (fun hc => HookResult.noConfusion hc)⟩,
   C5_tool_dispatch_short_circuit.2.2.2.2 _ "blocked".data⟩

/-- C6 (as amended): for every chat.message dispatch, no pattern filter is
applied: every registered extension runs in registration order, each free to
transform the accumulated content, and the final content is whatever the
last extension left it as, unless a Skip, Abort or Replace outcome
interrupts the chain (the original claim named only Abort and Replace as
interrupters, but dispatcher.rs line 94 also stops the chat chain on Skip —
see the counterexample). When every extension leaves the outcome Continue,
the dispatch equals the left fold of all hooks over the initial content. -/
theorem C6_chat_message_no_filter :
    (∀ (input : ChatMessageInput) (hooks : List ChatHook) (content : Str),
        (∀ h ∈ hooks, ∀ o, (h input o).result = HookResult.Continue) →
        trigger_chat_message hooks input content =
          hooks.foldl (fun o h => h input o) (ChatMessageOutput.new content))
    ∧ (∀ (input : ChatMessageInput) (h : ChatHook) (rest : List ChatHook)
        (output : ChatMessageOutput),
        (h input output).result ≠ HookResult.Continue →
        chat_message_go input (h :: rest) output = h input output)
    ∧ (∀ (input : ChatMessageInput) (h : ChatHook) (rest : List ChatHook)
        (output : ChatMessageOutput),
        (h input output).result = HookResult.Continue →
        chat_message_go input (h :: rest) output =
          chat_message_go input rest (h input output)) :=
  ⟨fun input hooks content hall => chat_go_all_continue input hooks (ChatMessageOutput.new content) hall,
   chat_go_stop, chat_go_continue⟩

/-- Witness for C6 at concrete inputs: two all-Continue hooks fold over the
content, and an Abort hook stops the chain. -/
theorem C6_witness :
    ((∀ h ∈ ([fun _ o => { content := o.content ++ "!".data, result := HookResult.Continue },
              fun _ o => { content := '>' :: o.content, result := HookResult.Continue }] : List ChatHook),
        ∀ o, (h cChatInput o).result = HookResult.Continue)
      ∧ trigger_chat_message
          [fun _ o => { content := o.content ++ "!".data, result := HookResult.Continue },
           fun _ o => { content := '>' :: o.content, result := HookResult.Continue }] cChatInput "hi".data
        = ([fun _ o => { content := o.content ++ "!".data, result := HookResult.Continue },
            fun _ o => { content := '>' :: o.content, result := HookResult.Continue }] : List ChatHook).foldl
            (fun o h => h cChatInput o) (ChatMessageOutput.new "hi".data))
    ∧ ((fun (_ : ChatMessageInput) (o : ChatMessageOutput) =>
          { o with result := HookResult.Abort "no".data } : ChatHook) cChatInput
            (ChatMessageOutput.new "hi".data)).result ≠ HookResult.Continue
    ∧ chat_message_go cChatInput
        [fun _ o => { o with result := HookResult.Abort "no".data },
         fun _ o => { o with content := [] }] (ChatMessageOutput.new "hi".data)
      = (fun (_ : ChatMessageInput) (o : ChatMessageOutput) =>
          { o with result := HookResult.Abort "no".data } : ChatHook) cChatInput
          (ChatMessageOutput.new "hi".data) := by
  refine ⟨⟨?_, ?_⟩, fun hc => HookResult.noConfusion hc, ?_⟩
  · intro h hmem o
    simp only [List.mem_cons, List.mem_singleton, List.not_mem_nil, or_false] at hmem
    rcases hmem with rfl | rfl <;> rfl
  · exact C6_chat_message_no_filter.1 cChatInput _ "hi".data
      (by
        intro h hmem o
        simp only [List.mem_cons, List.mem_singleton, List.not_mem_nil, or_false] at hmem
        rcases hmem with rfl | rfl <;> rfl)
  · exact C6_chat_message_no_filter.2.1 cChatInput _ _ _
      (fun hc => HookResult.noConfusion hc)

/-- Counterexample to C6 as originally stated: in the chain [hook returning
Skip, hook setting the content to "X"], no extension produces an Abort or a
Replace outcome — the first yields Skip and the second always yields
Continue — yet the second extension never runs: the dispatched content stays
"hi", while running every extension (the fold, i.e. "whatever the last
extension left it as") would give "X". Skip also interrupts the chat chain
(dispatcher.rs line 94). -/
theorem C6_chat_skip_counterexample :
    ((fun _ o => { o with result := HookResult.Skip } : ChatHook) cChatInput
        (ChatMessageOutput.new "hi".data)).result = HookResult.Skip
    ∧ (trigger_chat_message
        [fun _ o => { o with result := HookResult.Skip },
         fun _ _ => { content := "X".data, result := HookResult.Continue }]
        cChatInput "hi".data).content = "hi".data
    ∧ (([fun _ o => { o with result := HookResult.Skip },
         fun _ _ => { content := "X".data, result := HookResult.Continue }]
          : List ChatHook).foldl (fun o h => h cChatInput o)
          (ChatMessageOutput.new "hi".data)).content = "X".data
    ∧ (trigger_chat_message
        [fun _ o => { o with result := HookResult.Skip },
         fun _ _ => { content := "X".data, result := HookResult.Continue }]
        cChatInput "hi".data).content ≠ "X".data :=
  ⟨rfl, rfl, rfl, by decide⟩

/-- C1: during a permission.ask dispatch, whenever an invoked extension's
decision both requires elevated trust (attempts to auto-grant) and fails the
third-party-trust check, the decision is overwritten to Ask, a default
explanatory reason is attached if none was supplied, and evaluation
continues to the next registered extension instead of stopping; the chain
stops only once some extension produces a decision other than Ask; and the
final aggregate decision is never Allow — in particular never an Allow from
a non-system-trusted source. An extension returning Allow followed by one
returning Deny yields Deny. -/
theorem C1_permission_trust_coercion :
    (∀ (input : PermissionAskInput) (h : PermissionHook)
        (rest : List PermissionHook) (output : PermissionAskOutput),
        (h input output).decision.requires_elevated_trust = true →
        exceptIsErr (h input output).decision.validate_for_third_party = true →
        permission_ask_go input (h :: rest) output =
          permission_ask_go input rest (coerce_to_ask (h input output))
        ∧ (coerce_to_ask (h input output)).decision = PermissionDecision.Ask
        ∧ ((h input output).reason = none →
            (coerce_to_ask (h input output)).reason = some third_party_block_reason))
    ∧ (∀ (input : PermissionAskInput) (h : PermissionHook)
        (rest : List PermissionHook) (output : PermissionAskOutput),
        ((h input output).decision.requires_elevated_trust = true →
          exceptIsErr (h input output).decision.validate_for_third_party ≠ true) →
        (h input output).decision ≠ PermissionDecision.Ask →
        permission_ask_go input (h :: rest) output = h input output)
    ∧ (∀ (input : PermissionAskInput) (hooks : List PermissionHook),
        (trigger_permission_ask hooks input).decision ≠ PermissionDecision.Allow)
    ∧ (∀ (input : PermissionAskInput),
        trigger_permission_ask
          [fun _ o => { o with decision := PermissionDecision.Allow },
           fun _ o => { o with decision := PermissionDecision.Deny }] input
          = { decision := PermissionDecision.Deny,
              reason := some third_party_block_reason }) := by
  refine ⟨?_, ?_, ?_, fun input => rfl⟩
  · intro input h rest output h1 h2
    refine ⟨?_, rfl, ?_⟩
    · rw [permission_ask_go, if_pos (by rw [h1, h2]; rfl)]
    · intro hnone
      simp [coerce_to_ask, hnone]
  · intro input h rest output h1 h2
    rw [permission_ask_go]
    have hcond : ¬ (((h input output).decision.requires_elevated_trust
        && exceptIsErr (h input output).decision.validate_for_third_party) = true) := by
      intro hc
      rw [Bool.and_eq_true] at hc
      exact h1 hc.1 hc.2
    rw [if_neg hcond, if_pos h2]
  · intro input hooks
    exact permission_go_ne_allow input hooks PermissionAskOutput.ask
      (fun hc => PermissionDecision.noConfusion hc)

/-- Witness for C1 at concrete inputs: an Allow hook is coerced and the
chain continues to a Deny hook, which decides. -/
theorem C1_witness :
    (((fun _ o => { o with decision := PermissionDecision.Allow } : PermissionHook)
        cPermInput PermissionAskOutput.ask).decision.requires_elevated_trust = true
      ∧ exceptIsErr ((fun _ o => { o with decision := PermissionDecision.Allow } : PermissionHook)
          cPermInput PermissionAskOutput.ask).decision.validate_for_third_party = true
      ∧ permission_ask_go cPermInput
          [(fun _ o => { o with decision := PermissionDecision.Allow }),
           (fun _ o => { o with decision := PermissionDecision.Deny })]
          PermissionAskOutput.ask
        = permission_ask_go cPermInput
            [(fun _ o => { o with decision := PermissionDecision.Deny })]
            (coerce_to_ask ((fun _ o => { o with decision := PermissionDecision.Allow } : PermissionHook)
              cPermInput PermissionAskOutput.ask)))
    ∧ (trigger_permission_ask
        [fun _ o => { o with decision := PermissionDecision.Allow }] cPermInput).decision
        ≠ PermissionDecision.Allow
    ∧ trigger_permission_ask
        [fun _ o => { o with decision := PermissionDecision.Allow },
         fun _ o => { o with decision := PermissionDecision.Deny }] cPermInput
      = { decision := PermissionDecision.Deny,
          reason := some third_party_block_reason } :=
  ⟨⟨rfl, rfl,
    (C1_permission_trust_coercion.1 cPermInput
      (fun _ o => { o with decision := PermissionDecision.Allow })
      [(fun _ o => { o with decision := PermissionDecision.Deny })]
      PermissionAskOutput.ask rfl rfl).1⟩,
   C1_permission_trust_coercion.2.2.1 cPermInput
     [fun _ o => { o with decision := PermissionDecision.Allow }],
   C1_permission_trust_coercion.2.2.2 cPermInput⟩

/-! ## Claim theorems: signing and capability bridge -/

/-- C3: for every input — any module bytes and any signature of any length —
verify_plugin on a signer with zero configured trusted keys returns a
successful result carrying false, never an error, even when the signature is
not 64 bytes long. -/
theorem C3_verify_no_keys {K : Type} (verify : K → ByteStr → ByteStr → Bool)
    (signer : PluginSigner K) (wasm_bytes signature_bytes : ByteStr)
    (hkeys : signer.trusted_keys = []) :
    PluginSigner.verify_plugin verify signer wasm_bytes signature_bytes
      = Except.ok false := by
  simp [PluginSigner.verify_plugin, hkeys]

/-- Witness for C3: a keyless signer with a 1-byte signature still yields
Ok(false). -/
theorem C3_verify_no_keys_witness :
    (({ trusted_keys := [] } : PluginSigner Unit).trusted_keys = [])
    ∧ PluginSigner.verify_plugin (fun _ _ _ => true)
        ({ trusted_keys := [] } : PluginSigner Unit) [1, 2, 3] [0]
      = Except.ok false :=
  ⟨rfl, C3_verify_no_keys (fun _ _ _ => true) { trusted_keys := [] } [1, 2, 3] [0] rfl⟩

/-- C4: for a signer with at least one trusted key, verify_plugin with a
signature that is not exactly 64 bytes returns a format error (not false);
with a well-formed 64-byte signature it returns true if the signature
verifies under any one trusted key, and false if it verifies under none of
them. -/
theorem C4_verify_with_keys {K : Type} (verify : K → ByteStr → ByteStr → Bool)
    (signer : PluginSigner K) (wasm_bytes signature_bytes : ByteStr)
    (hkeys : signer.trusted_keys ≠ []) :
    (signature_bytes.length ≠ 64 →
      PluginSigner.verify_plugin verify signer wasm_bytes signature_bytes
        = Except.error (PluginError.SignatureError "Invalid signature length"))
    ∧ (signature_bytes.length = 64 →
        ((∃ key ∈ signer.trusted_keys, verify key wasm_bytes signature_bytes = true) →
          PluginSigner.verify_plugin verify signer wasm_bytes signature_bytes
            = Except.ok true)
        ∧ ((∀ key ∈ signer.trusted_keys, verify key wasm_bytes signature_bytes = false) →
          PluginSigner.verify_plugin verify signer wasm_bytes signature_bytes
            = Except.ok false)) := by
  have hempty : signer.trusted_keys.isEmpty = false := by
    simpa [List.isEmpty_iff] using hkeys
  constructor
  · intro hlen
    simp [PluginSigner.verify_plugin, hempty, hlen]
  · intro hlen
    constructor
    · intro hmatch
      simp [PluginSigner.verify_plugin, hempty, hlen, List.any_eq_true]
      exact hmatch
    · intro hnone
      simp [PluginSigner.verify_plugin, hempty, hlen, List.any_eq_false]
      intro key hkey
      simp [hnone key hkey]

/-- Witness for C4 at concrete signers: a short signature errors, a 64-byte
signature verifying under the second key succeeds, and one verifying under
no key yields false. -/
theorem C4_verify_with_keys_witness :
    (({ trusted_keys := [0, 1] } : PluginSigner Nat).trusted_keys ≠ [])
    ∧ PluginSigner.verify_plugin (fun k _ _ => k == 1)
        ({ trusted_keys := [0, 1] } : PluginSigner Nat) [7] [0]
      = Except.error (PluginError.SignatureError "Invalid signature length")
    ∧ PluginSigner.verify_plugin (fun k _ _ => k == 1)
        ({ trusted_keys := [0, 1] } : PluginSigner Nat) [7] (List.replicate 64 0)
      = Except.ok true
    ∧ PluginSigner.verify_plugin (fun _ _ _ => false)
        ({ trusted_keys := [0, 1] } : PluginSigner Nat) [7] (List.replicate 64 0)
      = Except.ok false := by
  refine ⟨by decide, ?_, ?_, ?_⟩
  · exact (C4_verify_with_keys (fun k _ _ => k == 1) { trusted_keys := [0, 1] }
      [7] [0] (by decide)).1 (by decide)
  · exact ((C4_verify_with_keys (fun k _ _ => k == 1) { trusted_keys := [0, 1] }
      [7] (List.replicate 64 0) (by decide)).2 (by simp)).1 ⟨1, by decide, rfl⟩
  · exact ((C4_verify_with_keys (fun _ _ _ => false) { trusted_keys := [0, 1] }
      [7] (List.replicate 64 0) (by decide)).2 (by simp)).2 (fun _ _ => rfl)

/-- The region-ordinal map rejects exactly the ordinals outside 0-9. -/
theorem ui_region_none_iff (region : Int) :
    ui_region_of_i32 region = none ↔ (region < 0 ∨ 9 < region) := by
  unfold ui_region_of_i32
  split_ifs <;> simp_all <;> omega

/-- C2: for every (ptr, len) pair passed as a string parameter to a
capability-bridge function: if ptr or len is negative, or ptr+len overflows,
or ptr+len exceeds the module memory's current length, the read fails with
the MemoryOutOfBounds sentinel and no host state is mutated; if the range is
in bounds but the bytes are not valid UTF-8, it fails with InvalidUtf8; and
every string-reading bridge function returns the failing read's sentinel
code with the host state unchanged (the model is total, so no panic path
exists). -/
theorem C2_read_string_safety (mem : ByteStr) (ptr len : Int) :
    (ptr < 0 ∨ len < 0 →
      read_string_from_memory (some mem) ptr len
        = Except.error HostError.MemoryOutOfBounds)
    ∧ (2 ^ 64 ≤ ptr.toNat + len.toNat →
      read_string_from_memory (some mem) ptr len
        = Except.error HostError.MemoryOutOfBounds)
    ∧ (mem.length < ptr.toNat + len.toNat → ptr.toNat + len.toNat < 2 ^ 64 →
      read_string_from_memory (some mem) ptr len
        = Except.error HostError.MemoryOutOfBounds)
    ∧ (0 ≤ ptr → 0 ≤ len → ptr.toNat + len.toNat < 2 ^ 64 →
        ptr.toNat + len.toNat ≤ mem.length →
        utf8Valid ((mem.drop ptr.toNat).take len.toNat) = false →
      read_string_from_memory (some mem) ptr len
        = Except.error HostError.InvalidUtf8)
    ∧ (∀ (state : PluginHostState) (region : Int) (e : HostError),
        read_string_from_memory (some mem) ptr len = Except.error e →
        register_widget_impl (some mem) state region ptr len = (e.code, state))
    ∧ (∀ (state : PluginHostState) (level duration_ms : Int) (e : HostError),
        read_string_from_memory (some mem) ptr len = Except.error e →
        show_toast_impl (some mem) state level ptr len duration_ms
          = (e.code, state))
    ∧ (∀ (state : PluginHostState) (p2 l2 : Int) (e : HostError),
        read_string_from_memory (some mem) ptr len = Except.error e →
        register_keybinding_impl (some mem) state ptr len p2 l2
          = (e.code, state))
    ∧ (∀ (state : PluginHostState) (p1 l1 : Int) (key : ByteStr) (e : HostError),
        read_string_from_memory (some mem) p1 l1 = Except.ok key →
        read_string_from_memory (some mem) ptr len = Except.error e →
        register_keybinding_impl (some mem) state p1 l1 ptr len
          = (e.code, state))
    ∧ (∀ (state : PluginHostState) (p2 l2 : Int) (jv : ByteStr → Bool) (now : Nat)
          (e : HostError),
        read_string_from_memory (some mem) ptr len = Except.error e →
        emit_event_impl jv now (some mem) state ptr len p2 l2 = (e.code, state))
    ∧ (∀ (state : PluginHostState) (p1 l1 : Int) (name : ByteStr)
          (jv : ByteStr → Bool) (now : Nat) (e : HostError),
        read_string_from_memory (some mem) p1 l1 = Except.ok name →
        read_string_from_memory (some mem) ptr len = Except.error e →
        emit_event_impl jv now (some mem) state p1 l1 ptr len
          = (e.code, state)) := by
  refine ⟨?_, ?_, ?_, ?_, ?_, ?_, ?_, ?_, ?_, ?_⟩
  · intro h
    rw [read_string_from_memory, if_pos h]
  · intro h
    by_cases hneg : ptr < 0 ∨ len < 0
    · rw [read_string_from_memory, if_pos hneg]
    · rw [read_string_from_memory, if_neg hneg]
      simp only [usize_checked_add, if_neg (by omega : ¬ (ptr.toNat + len.toNat < 2 ^ 64))]
  · intro hlen hfit
    by_cases hneg : ptr < 0 ∨ len < 0
    · rw [read_string_from_memory, if_pos hneg]
    · rw [read_string_from_memory, if_neg hneg]
      simp only [usize_checked_add, if_pos hfit]
      rw [if_pos (by omega : ptr.toNat + len.toNat > mem.length)]
  · intro hp hl hfit hbound hutf
    have hneg : ¬ (ptr < 0 ∨ len < 0) := by omega
    rw [read_string_from_memory, if_neg hneg]
    simp only [usize_checked_add, if_pos hfit]
    rw [if_neg (by omega : ¬ (ptr.toNat + len.toNat > mem.length))]
    have hsub : ptr.toNat + len.toNat - ptr.toNat = len.toNat := by omega
    rw [hsub, if_neg (by simp [hutf])]
  · intro state region e hread
    simp [register_widget_impl, hread]
  · intro state level duration_ms e hread
    simp [show_toast_impl, hread]
  · intro state p2 l2 e hread
    simp [register_keybinding_impl, hread]
  · intro state p1 l1 key e hok hread
    simp [register_keybinding_impl, hok, hread]
  · intro state p2 l2 jv now e hread
    simp [emit_event_impl, hread]
  · intro state p1 l1 name jv now e hok hread
    simp [emit_event_impl, hok, hread]

/-- Counterexample to C8 as originally stated: with an unreadable type
string (empty memory, len 1) and region ordinal 10 (outside 0-9),
register_widget returns MemoryOutOfBounds (-1), not InvalidArgument (-3),
because the string read precedes region validation; the widget collection is
still unchanged. -/
theorem C8_register_widget_counterexample :
    ui_region_of_i32 10 = none
    ∧ register_widget_impl (some []) cHostState 10 0 1
        = (HostError.MemoryOutOfBounds.code, cHostState)
    ∧ register_widget_impl (some []) cHostState 10 0 1
        ≠ (HostError.InvalidArgument.code, cHostState) := by
  refine ⟨rfl, rfl, by decide⟩

/-- C8 (as amended): for every call to register_widget whose type string
reads successfully, a region ordinal outside 0-9 returns the InvalidArgument
sentinel (-3) and leaves the widget collection unchanged; when the type
string read fails, that read's error code is returned instead and the
collection is still unchanged; every valid call (in-range ordinal, readable
UTF-8 type string) appends the widget type string to that region's list. -/
theorem C8_register_widget (mem : Option ByteStr) (state : PluginHostState)
    (region type_ptr type_len : Int) :
    (ui_region_of_i32 region = none ↔ (region < 0 ∨ 9 < region))
    ∧ (∀ widget_type,
        read_string_from_memory mem type_ptr type_len = Except.ok widget_type →
        ui_region_of_i32 region = none →
        register_widget_impl mem state region type_ptr type_len
          = (HostError.InvalidArgument.code, state))
    ∧ (∀ e, read_string_from_memory mem type_ptr type_len = Except.error e →
        register_widget_impl mem state region type_ptr type_len = (e.code, state))
    ∧ (∀ widget_type ui_region,
        read_string_from_memory mem type_ptr type_len = Except.ok widget_type →
        ui_region_of_i32 region = some ui_region →
        register_widget_impl mem state region type_ptr type_len
          = (HostError.Success.code,
             { state with
                 widgets := widgets_push ui_region widget_type state.widgets })) := by
  refine ⟨ui_region_none_iff region, ?_, ?_, ?_⟩
  · intro widget_type hread hregion
    simp [register_widget_impl, hread, hregion]
  · intro e hread
    simp [register_widget_impl, hread]
  · intro widget_type ui_region hread hregion
    simp [register_widget_impl, hread, hregion]

/-- Witness for C8 at concrete inputs: a readable one-byte type string with
region 10 gives InvalidArgument and an unchanged state; region 3 appends to
the SidebarRight list. -/
theorem C8_register_widget_witness :
    (read_string_from_memory (some [104]) 0 1 = Except.ok [104]
      ∧ ui_region_of_i32 10 = none
      ∧ register_widget_impl (some [104]) cHostState 10 0 1
          = (HostError.InvalidArgument.code, cHostState))
    ∧ (read_string_from_memory (some [104]) 0 1 = Except.ok [104]
      ∧ ui_region_of_i32 3 = some UiRegion.SidebarRight
      ∧ register_widget_impl (some [104]) cHostState 3 0 1
          = (HostError.Success.code,
             { cHostState with
                 widgets := widgets_push UiRegion.SidebarRight [104] cHostState.widgets })) :=
  ⟨⟨rfl, rfl,
     (C8_register_widget (some [104]) cHostState 10 0 1).2.1 [104] rfl rfl⟩,
   ⟨rfl, rfl,
     (C8_register_widget (some [104]) cHostState 3 0 1).2.2.2 [104]
       UiRegion.SidebarRight rfl rfl⟩⟩

/-- C9: for every call to emit_event with readable string arguments: an
empty name returns InvalidArgument; a non-empty payload that does not parse
as syntactically valid JSON returns InvalidArgument and appends nothing; an
empty payload is permitted, and every valid call appends exactly one event
record carrying the name, payload, and a timestamp. -/
theorem C9_emit_event (json_valid : ByteStr → Bool) (now : Nat)
    (mem : Option ByteStr) (state : PluginHostState)
    (name_ptr name_len data_ptr data_len : Int) (name data : ByteStr)
    (hname : read_string_from_memory mem name_ptr name_len = Except.ok name)
    (hdata : read_string_from_memory mem data_ptr data_len = Except.ok data) :
    (name = [] →
      emit_event_impl json_valid now mem state name_ptr name_len data_ptr data_len
        = (HostError.InvalidArgument.code, state))
    ∧ (name ≠ [] → data ≠ [] → json_valid data = false →
      emit_event_impl json_valid now mem state name_ptr name_len data_ptr data_len
        = (HostError.InvalidArgument.code, state))
    ∧ (name ≠ [] → (data = [] ∨ json_valid data = true) →
      emit_event_impl json_valid now mem state name_ptr name_len data_ptr data_len
        = (HostError.Success.code,
           { state with events := state.events ++
               [{ name := name, data := data, plugin_id := state.plugin_id,
                  timestamp := now }] })) := by
  refine ⟨?_, ?_, ?_⟩
  · intro hempty
    simp [emit_event_impl, hname, hdata, hempty]
  · intro hne hdne hjv
    simp [emit_event_impl, hname, hdata, hne, hdne, hjv]
  · intro hne hok
    rcases hok with hde | hjv
    · simp [emit_event_impl, hname, hdata, hne, hde]
    · simp [emit_event_impl, hname, hdata, hne, hjv]

/-- Witness for C9 at concrete inputs: invalid payload rejected, valid
payload appended, empty name rejected, empty payload accepted. -/
theorem C9_emit_event_witness :
    (read_string_from_memory (some [104, 123]) 0 1 = Except.ok [104]
      ∧ read_string_from_memory (some [104, 123]) 1 1 = Except.ok [123]
      ∧ emit_event_impl (fun _ => false) 5 (some [104, 123]) cHostState 0 1 1 1
          = (HostError.InvalidArgument.code, cHostState)
      ∧ emit_event_impl (fun _ => true) 5 (some [104, 123]) cHostState 0 1 1 1
          = (HostError.Success.code,
             { cHostState with events := cHostState.events ++
                 [{ name := [104], data := [123], plugin_id := cHostState.plugin_id,
                    timestamp := 5 }] }))
    ∧ (read_string_from_memory (some [104, 123]) 0 0 = Except.ok []
      ∧ emit_event_impl (fun _ => true) 5 (some [104, 123]) cHostState 0 0 1 1
          = (HostError.InvalidArgument.code, cHostState))
    ∧ (read_string_from_memory (some [104, 123]) 1 0 = Except.ok []
      ∧ emit_event_impl (fun _ => false) 5 (some [104, 123]) cHostState 0 1 1 0
          = (HostError.Success.code,
             { cHostState with events := cHostState.events ++
                 [{ name := [104], data := [], plugin_id := cHostState.plugin_id,
                    timestamp := 5 }] })) := by
  refine ⟨⟨rfl, rfl, ?_, ?_⟩, ⟨rfl, ?_⟩, ⟨rfl, ?_⟩⟩
  · exact (C9_emit_event (fun _ => false) 5 (some [104, 123]) cHostState 0 1 1 1
      [104] [123] rfl rfl).2.1 (by decide) (by decide) rfl
  · exact (C9_emit_event (fun _ => true) 5 (some [104, 123]) cHostState 0 1 1 1
      [104] [123] rfl rfl).2.2 (by decide) (Or.inr rfl)
  · exact (C9_emit_event (fun _ => true) 5 (some [104, 123]) cHostState 0 0 1 1
      [] [123] rfl rfl).1 rfl
  · exact (C9_emit_event (fun _ => false) 5 (some [104, 123]) cHostState 0 1 1 0
      [104] [] rfl rfl).2.2 (by decide) (Or.inl rfl)

/-- Witness for C2 at concrete inputs: a negative pointer, a length past the
end of memory, a huge length whose usize sum overflows, an invalid UTF-8
byte, and a failing read leaving the widget state untouched. -/
theorem C2_read_string_safety_witness :
    (((-1 : Int) < 0 ∨ (0 : Int) < 0)
      ∧ read_string_from_memory (some [104]) (-1) 0
          = Except.error HostError.MemoryOutOfBounds)
    ∧ (2 ^ 64 ≤ (0 : Int).toNat + (2 ^ 64 : Int).toNat
      ∧ read_string_from_memory (some []) 0 (2 ^ 64)
          = Except.error HostError.MemoryOutOfBounds)
    ∧ ((([104] : ByteStr).length < (0 : Int).toNat + (2 : Int).toNat
          ∧ (0 : Int).toNat + (2 : Int).toNat < 2 ^ 64)
      ∧ read_string_from_memory (some [104]) 0 2
          = Except.error HostError.MemoryOutOfBounds)
    ∧ (utf8Valid ((([255] : ByteStr).drop (0 : Int).toNat).take (1 : Int).toNat) = false
      ∧ read_string_from_memory (some [255]) 0 1
          = Except.error HostError.InvalidUtf8)
    ∧ (read_string_from_memory (some []) 0 1
          = Except.error HostError.MemoryOutOfBounds
      ∧ register_widget_impl (some []) cHostState 3 0 1
          = (HostError.MemoryOutOfBounds.code, cHostState)) :=
  ⟨⟨Or.inl (by decide), (C2_read_string_safety [104] (-1) 0).1 (Or.inl (by decide))⟩,
   ⟨by decide, (C2_read_string_safety [] 0 (2 ^ 64)).2.1 (by decide)⟩,
   ⟨⟨by decide, by decide⟩,
    (C2_read_string_safety [104] 0 2).2.2.1 (by decide) (by decide)⟩,
   ⟨by decide,
    (C2_read_string_safety [255] 0 1).2.2.2.1 (by decide) (by decide) (by decide)
      (by decide) (by decide)⟩,
   ⟨rfl,
    (C2_read_string_safety [] 0 1).2.2.2.2.1 cHostState 3
      HostError.MemoryOutOfBounds rfl⟩⟩
